import Mathlib

/-!
Verification of the parameter-resolution and query-construction pipeline of
the gcpmetrics command-line tool (src/gcpmetrics/gcpmetrics.py).

The embedding models Python values flowing through the argument dictionary
with an inductive `Val` (None, int, str, bool, dict), the argument dictionary
itself as an ordered association list (Python dicts preserve insertion
order), and each failure path as a value of `Failure`: `usageExit` stands for
the `error()` helper (one-line message plus usage help on stderr, exit
code 1) and `uncaught` for an uncaught Python exception (traceback on
stderr, exit code 1, no usage help).
-/

/-- Python values that appear in the argument dictionary and in loaded
configuration layers: `None`, integers, strings, booleans, and nested
dictionaries (used for presets). Dictionary keys are modelled as strings,
which is what argparse and the YAML configs produce. -/
inductive Val where
  | none : Val
  | int : Int → Val
  | str : String → Val
  | bool : Bool → Val
  | dict : List (String × Val) → Val

/-- Python `v is None`. -/
def Val.isNone : Val → Bool
  | Val.none => true
  | _ => false

/-- Python `v == 0`: true for the integer 0 and for `False` (Python booleans
compare equal to integers); `None`, strings and dicts never equal 0. -/
def pyEqZero : Val → Bool
  | Val.int n => n == 0
  | Val.bool b => !b
  | _ => false

/-- Python truthiness of a `Val`: `None`, `0`, `""`, `False` and `{}` are
falsy, everything else truthy. -/
def Val.truthy : Val → Bool
  | Val.none => false
  | Val.int n => !(n == 0)
  | Val.str s => !(s == "")
  | Val.bool b => b
  | Val.dict m => !m.isEmpty

/-- Observable failure of a run: `usageExit` models the `error()` helper
(writes a one-line message and the full usage help to stderr, then
`sys.exit(1)`); `uncaught` models an uncaught Python exception (traceback on
stderr, interpreter exit code 1, no usage help). -/
inductive Failure where
  | usageExit : String → Failure
  | uncaught : String → Failure
deriving DecidableEq

/-- Exit code of the process on either failure path: `sys.exit(1)` for
`error()`, and CPython exits with code 1 on an uncaught exception. -/
def Failure.exitCode : Failure → Int
  | _ => 1

/-- Whether the failure path prints the argparse usage help: only the
`error()` helper does; an uncaught exception prints a traceback instead. -/
def Failure.printsUsageHelp : Failure → Bool
  | Failure.usageExit _ => true
  | Failure.uncaught _ => false

/-- Python dict assignment `d[k] = v` on an insertion-ordered dict: an
existing key keeps its position and gets the new value, a new key is
appended at the end. -/
def insertOrd {α : Type} : List (String × α) → String → α → List (String × α)
  | [], k, v => [(k, v)]
  | (k', v') :: t, k, v =>
    if k' = k then (k', v) :: t else (k', v') :: insertOrd t k v

/-- Read `args_dict[p]`; all keys read by the program are present, so the
`Val.none` default is never observed on real argument dictionaries. -/
def getArg (args : List (String × Val)) (p : String) : Val :=
  (args.lookup p).getD Val.none

/-- Lines 223-232 and 257-260 of gcpmetrics.py: one fill pass
`for p in args_dict.keys(): if _ret[p] is None and p in cfg: _ret[p] = cfg[p]`.
Used for the local-layer pass, the global-layer pass, and the global-preset
pass, which all use the strict `is None` test. -/
def fillIfNone (cfg : List (String × Val)) (args : List (String × Val)) :
    List (String × Val) :=
  args.map (fun pv =>
    if pv.2.isNone then
      match cfg.lookup pv.1 with
      | some w => (pv.1, w)
      | Option.none => pv
    else pv)

/-- Guard of the local-preset fill pass:
`_ret[p] is None or _ret[p] == 0`. -/
def unsetOrZero (v : Val) : Bool :=
  v.isNone || pyEqZero v

/-- Lines 250-254 of gcpmetrics.py: the local-preset fill pass, whose guard
is `_ret[p] is None or _ret[p] == 0` — the wider zero-as-unset condition. -/
def fillIfNoneOrZero (cfg : List (String × Val)) (args : List (String × Val)) :
    List (String × Val) :=
  args.map (fun pv =>
    if unsetOrZero pv.2 then
      match cfg.lookup pv.1 with
      | some w => (pv.1, w)
      | Option.none => pv
    else pv)

/-- Look a preset id up in a configuration layer: `cfg[preset_id]` guarded by
`preset_id in cfg`. The id read from the argument dictionary is a string in
every run that reaches this point; a non-string id is modelled as absent. -/
def presetLookup (cfg : List (String × Val)) : Val → Option Val
  | Val.str s => cfg.lookup s
  | _ => Option.none

/-- Lines 250-254 of gcpmetrics.py: `if local_preset:` followed by the
zero-as-unset fill loop. A truthy non-dict preset value would raise a
TypeError at `p in local_preset`. -/
def applyLocalPresetPass : Option Val → List (String × Val) →
    Except Failure (List (String × Val))
  | Option.none, args => Except.ok args
  | some lp, args =>
    if lp.truthy then
      match lp with
      | Val.dict m => Except.ok (fillIfNoneOrZero m args)
      | _ => Except.error (Failure.uncaught "TypeError")
    else Except.ok args

/-- Lines 256-260 of gcpmetrics.py: `if global_preset:` followed by the
strict `is None` fill loop. -/
def applyGlobalPresetPass : Option Val → List (String × Val) →
    Except Failure (List (String × Val))
  | Option.none, args => Except.ok args
  | some gp, args =>
    if gp.truthy then
      match gp with
      | Val.dict m => Except.ok (fillIfNone m args)
      | _ => Except.error (Failure.uncaught "TypeError")
    else Except.ok args

/-- Lines 209-262 of gcpmetrics.py, `apply_configs` after the two YAML files
have been loaded: fill from the local layer, then from the global layer
(both strict `is None`); stop unless a truthy preset id is resolved; fail
through `error()` when neither layer holds the preset; otherwise run the
local-preset pass (zero-as-unset) and then the global-preset pass (strict).
The Python code mutates `args_dict` in place through the alias `_ret`, so
each pass sees the result of the previous pass, modelled here by threading. -/
def apply_configs (args_dict global_config local_config : List (String × Val)) :
    Except Failure (List (String × Val)) :=
  let r1 := fillIfNone local_config args_dict
  let r2 := fillIfNone global_config r1
  if (getArg r2 "preset").truthy then
    match presetLookup local_config (getArg r2 "preset"),
        presetLookup global_config (getArg r2 "preset") with
    | Option.none, Option.none =>
      Except.error (Failure.usageExit
        "Preset not found in either local or global configudation files")
    | lp, gp =>
      match applyLocalPresetPass lp r2 with
      | Except.error e => Except.error e
      | Except.ok r3 => applyGlobalPresetPass gp r3
  else Except.ok r2

/-- The argument dictionary produced by `vars(parser.parse_args())` when no
flag other than `--preset` and possibly the time-window options is given:
every `dest` maps to its argparse default (`None` everywhere except
`days`/`hours`/`minutes`, which default to the integer 0), with the
time-window entries and the preset id taken as parameters. -/
def cliArgs (preset days hours minutes : Val) : List (String × Val) :=
  [("version", Val.none), ("init_config", Val.none), ("config", Val.none),
   ("keyfile", Val.none), ("preset", preset), ("project", Val.none),
   ("list_resources", Val.none), ("list_metrics", Val.none),
   ("query", Val.none), ("service", Val.none), ("metric", Val.none),
   ("infinite", Val.none), ("days", days), ("hours", hours),
   ("minutes", minutes), ("resource_filter", Val.none),
   ("metric_filter", Val.none), ("align", Val.none),
   ("align_period_seconds", Val.none), ("reduce", Val.none),
   ("reduce_grouping", Val.none), ("iloc00", Val.none)]

/-- All-defaults argument dictionary with a requested preset id. -/
def cliDefaults (preset : Val) : List (String × Val) :=
  cliArgs preset (Val.int 0) (Val.int 0) (Val.int 0)

/-- A configuration layer holding one preset `peak` with `days: 7`. -/
def peakConfig : List (String × Val) :=
  [("peak", Val.dict [("days", Val.int 7)])]

example :
    (apply_configs (cliDefaults (Val.str "peak")) [] peakConfig).map
      (fun r => getArg r "days") = Except.ok (Val.int 7) := by rfl

example :
    (apply_configs (cliDefaults (Val.str "peak")) peakConfig []).map
      (fun r => getArg r "days") = Except.ok (Val.int 0) := by rfl

/-- Lines 286-293 of gcpmetrics.py: when the `infinite` entry is truthy,
set `days` to `(utcnow() - dawn).days` and force `hours` and `minutes` to 0.
The current instant is passed in as `nowSecs`, the number of seconds elapsed
since the fixed epoch constant 2011-10-06 00:00 UTC (the dawn date parsed by
`strptime`); `timedelta.days` is the floor of that count over 86400. -/
def applyInfinite (nowSecs : Nat) (args : List (String × Val)) :
    List (String × Val) :=
  if (getArg args "infinite").truthy then
    insertOrd (insertOrd (insertOrd args "days" (Val.int (nowSecs / 86400)))
      "hours" (Val.int 0)) "minutes" (Val.int 0)
  else args

/-- Lines 295-301 of gcpmetrics.py, restricted to the two string-valued
entries it touches: when the service id is truthy, build
the string `module_id:` plus the service id and either initialize the resource-filter string
with it (when the current value is `None`) or concatenate it directly onto
the existing string with `+=` — no separator is inserted. -/
def applyService (service resource_filter : Option String) : Option String :=
  match service with
  | Option.none => resource_filter
  | some svc =>
    if svc = "" then resource_filter
    else
      match resource_filter with
      | Option.none => some ("module_id:" ++ svc)
      | some rf => some (rf ++ ("module_id:" ++ svc))

/-- Python `s.split(sep)` on the character list of `s`: every separator
splits, `n` separators give `n + 1` parts, the empty input gives one empty
part. -/
def pySplit (sep : Char) : List Char → List (List Char)
  | [] => [[]]
  | c :: cs =>
    if c = sep then [] :: pySplit sep cs
    else
      match pySplit sep cs with
      | [] => [[c]]
      | p :: ps => (c :: p) :: ps

/-- Python `s.split(sep, 1)`: split at the first separator only, so the
result has two parts when the separator occurs and one part otherwise. -/
def pySplit1 (sep : Char) : List Char → List (List Char)
  | [] => [[]]
  | c :: cs =>
    if c = sep then [[], cs]
    else
      match pySplit1 sep cs with
      | [] => [[c]]
      | p :: ps => (c :: p) :: ps

/-- One iteration of the `process_filter` loop, lines 308-310 of
gcpmetrics.py: split the entry at the first colon into key and value, then assign. The
tuple unpacking raises an uncaught ValueError when the split yields a single
part, i.e. when the entry has no `:`. -/
def filterStep (acc : List (String × String)) (res : List Char) :
    Except Failure (List (String × String)) :=
  match pySplit1 ':' res with
  | [k, v] => Except.ok (insertOrd acc (String.mk k) (String.mk v))
  | _ => Except.error (Failure.uncaught "ValueError")

/-- Lines 303-311 of gcpmetrics.py, the nested `process_filter`: a falsy
input (`None` or the empty string) yields `None`; otherwise split on `,`,
split each entry at the first `:` into key and value, and insert into an
insertion-ordered dict. An entry without `:` makes the tuple unpacking
the tuple unpacking of the one-argument split raise an uncaught ValueError. -/
def process_filter (f : Option String) :
    Except Failure (Option (List (String × String))) :=
  match f with
  | Option.none => Except.ok Option.none
  | some s =>
    if s.isEmpty then Except.ok Option.none
    else
      Except.map some ((pySplit ',' s.toList).foldlM filterStep [])

example : process_filter (some "env:prod,region:us") =
    Except.ok (some [("env", "prod"), ("region", "us")]) := by rfl

example : process_filter (some "a:1,b:2,a:3") =
    Except.ok (some [("a", "3"), ("b", "2")]) := by rfl

example : process_filter (some "a:b:c") =
    Except.ok (some [("a", "b:c")]) := by rfl

example : process_filter (some "bad") =
    Except.error (Failure.uncaught "ValueError") := by rfl

/-- Lines 317-319 of gcpmetrics.py: inject the default alignment period of
300 seconds when the resolved value is still `None`. -/
def defaultAlignPeriod (args : List (String × Val)) : List (String × Val) :=
  if (getArg args "align_period_seconds").isNone then
    insertOrd args "align_period_seconds" (Val.int 300)
  else args

/-- Accumulate decimal digits; any non-digit character fails, as `int()`
does on a malformed literal. -/
def pyDigitsAux : List Char → Nat → Option Nat
  | [], acc => some acc
  | c :: cs, acc =>
    if c.isDigit then pyDigitsAux cs (acc * 10 + (c.toNat - 48))
    else Option.none

/-- Parse a non-empty run of decimal digits; the empty string fails. -/
def pyDigits : List Char → Option Nat
  | [] => Option.none
  | cs => pyDigitsAux cs 0

/-- Python `int(s)` on a string: an optional sign followed by decimal
digits (surrounding whitespace and digit-group underscores, which `int()`
also accepts, do not occur in the inputs of this program). -/
def pyParseInt (s : String) : Option Int :=
  match s.toList with
  | '-' :: rest => (pyDigits rest).map (fun n => -(n : Int))
  | '+' :: rest => (pyDigits rest).map (fun n => (n : Int))
  | cs => (pyDigits cs).map (fun n => (n : Int))

/-- Python `int(v)` as applied on lines 332-338 of gcpmetrics.py: integers
pass through, booleans become 0 or 1, strings are parsed as decimal integers
with an optional sign, and anything else raises. -/
def pyInt : Val → Option Int
  | Val.int n => some n
  | Val.bool b => some (if b then 1 else 0)
  | Val.str s => pyParseInt s
  | _ => Option.none

/-- Python truthiness of an optional string (`if not metric_id`, `if align`):
absent and empty are falsy. -/
def optStrFalsy : Option String → Bool
  | Option.none => true
  | some s => s == ""

/-- Python truthiness of an optional decoded filter dict
(`if resource_filter:`): absent and empty are falsy. -/
def optDictTruthy {α : Type} : Option (List α) → Bool
  | Option.none => false
  | some m => !m.isEmpty

/-- The query state accumulated by `perform_query` before any network call:
the `Query` constructor arguments plus the effects of `select_resources`,
`select_metrics`, `align` and `reduce`. -/
structure QuerySpec where
  project : String
  metric_type : String
  days : Int
  hours : Int
  minutes : Int
  resource_filter : Option (List (String × String))
  metric_filter : Option (List (String × String))
  align : Option (String × Int)
  reduce : Option (String × List String)
deriving DecidableEq

/-- Lines 90-128 of gcpmetrics.py, the pure prefix of `perform_query`: fail
through `error()` when the combined time window is zero, then when the
metric id is falsy; otherwise assemble the query specification, attaching
the filters only when truthy, alignment only when `align` is truthy (with
the given period in seconds, unvalidated), and reduction only when `reduce`
is truthy (with the grouping list, empty when falsy). No I/O happens up to
this point; the network call is `as_dataframe()` afterwards. -/
def perform_query_build (project_id : String) (metric_id : Option String)
    (days hours minutes : Int)
    (resource_filter metric_filter : Option (List (String × String)))
    (align : Option String) (align_period_seconds : Int)
    (reduce : Option String) (reduce_grouping : Option (List String)) :
    Except Failure QuerySpec :=
  if days + hours + minutes = 0 then
    Except.error (Failure.usageExit
      "No time interval specified. Please use --infinite or --days, --hours, --minutes")
  else if optStrFalsy metric_id then
    Except.error (Failure.usageExit
      "Metric ID is required for query, please use --metric")
  else
    Except.ok
      { project := project_id
        metric_type := metric_id.getD ""
        days := days
        hours := hours
        minutes := minutes
        resource_filter :=
          if optDictTruthy resource_filter then resource_filter
          else Option.none
        metric_filter :=
          if optDictTruthy metric_filter then metric_filter else Option.none
        align :=
          if optStrFalsy align then Option.none
          else some (align.getD "", align_period_seconds)
        reduce :=
          if optStrFalsy reduce then Option.none
          else some (reduce.getD "",
            if optDictTruthy reduce_grouping then reduce_grouping.getD []
            else []) }

/-- Lines 132-142 of gcpmetrics.py, the scalar-output branch: a result table
with zero rows prints the literal string `0`; otherwise `assert` demands
exactly one row and exactly one column before printing the top-left cell,
and a violated assertion raises an uncaught AssertionError. Rows are lists
of the string representations of the cells. -/
def format_iloc00 (table : List (List String)) : Except Failure String :=
  match table with
  | [] => Except.ok "0"
  | [row] =>
    match row with
    | [cell] => Except.ok cell
    | _ => Except.error (Failure.uncaught "AssertionError")
  | _ => Except.error (Failure.uncaught "AssertionError")

theorem lookup_fillIfNone (cfg args : List (String × Val)) (p : String)
    (v : Val) (h : args.lookup p = some v) :
    (fillIfNone cfg args).lookup p =
      some (if v.isNone then (cfg.lookup p).getD v else v) := by
  induction args with
  | nil => simp at h
  | cons hd t ih =>
    obtain ⟨k, w⟩ := hd
    simp only [List.lookup_cons] at h
    by_cases hpk : p = k
    · subst hpk
      simp only [beq_self_eq_true, if_pos] at h
      injection h with h
      subst h
      simp only [fillIfNone, List.map_cons]
      by_cases hn : w.isNone
      · cases hcfg : cfg.lookup p with
        | none => simp [hn, hcfg, List.lookup_cons]
        | some nv => simp [hn, hcfg, List.lookup_cons]
      · simp [hn, List.lookup_cons]
    · have hbeq : (p == k) = false := beq_false_of_ne hpk
      simp only [hbeq, Bool.false_eq_true, if_false] at h
      have hres := ih h
      simp only [fillIfNone, List.map_cons]
      by_cases hn : w.isNone
      · cases hcfg : cfg.lookup k with
        | none =>
          simpa [hn, hcfg, List.lookup_cons, hbeq, fillIfNone] using hres
        | some nv =>
          simpa [hn, hcfg, List.lookup_cons, hbeq, fillIfNone] using hres
      · simpa [hn, List.lookup_cons, hbeq, fillIfNone] using hres

theorem lookup_fillIfNoneOrZero (cfg args : List (String × Val)) (p : String)
    (v : Val) (h : args.lookup p = some v) :
    (fillIfNoneOrZero cfg args).lookup p =
      some (if unsetOrZero v then (cfg.lookup p).getD v else v) := by
  induction args with
  | nil => simp at h
  | cons hd t ih =>
    obtain ⟨k, w⟩ := hd
    simp only [List.lookup_cons] at h
    by_cases hpk : p = k
    · subst hpk
      simp only [beq_self_eq_true, if_pos] at h
      injection h with h
      subst h
      simp only [fillIfNoneOrZero, List.map_cons]
      by_cases hn : unsetOrZero w
      · cases hcfg : cfg.lookup p with
        | none => simp [hn, hcfg, List.lookup_cons]
        | some nv => simp [hn, hcfg, List.lookup_cons]
      · simp [hn, List.lookup_cons]
    · have hbeq : (p == k) = false := beq_false_of_ne hpk
      simp only [hbeq, Bool.false_eq_true, if_false] at h
      have hres := ih h
      simp only [fillIfNoneOrZero, List.map_cons]
      by_cases hn : unsetOrZero w
      · cases hcfg : cfg.lookup k with
        | none =>
          simpa [hn, hcfg, List.lookup_cons, hbeq, fillIfNoneOrZero] using hres
        | some nv =>
          simpa [hn, hcfg, List.lookup_cons, hbeq, fillIfNoneOrZero] using hres
      · simpa [hn, List.lookup_cons, hbeq, fillIfNoneOrZero] using hres

theorem fillIfNone_keeps (cfg args : List (String × Val)) (p : String)
    (v : Val) (h : args.lookup p = some v) (hn : v.isNone = false) :
    (fillIfNone cfg args).lookup p = some v := by
  rw [lookup_fillIfNone cfg args p v h, hn]
  simp

theorem fillIfNoneOrZero_keeps (cfg args : List (String × Val)) (p : String)
    (v : Val) (h : args.lookup p = some v) (hz : unsetOrZero v = false) :
    (fillIfNoneOrZero cfg args).lookup p = some v := by
  rw [lookup_fillIfNoneOrZero cfg args p v h, hz]
  simp

theorem applyLocalPresetPass_keeps (lp : Option Val)
    (args args' : List (String × Val)) (p : String) (v : Val)
    (hok : applyLocalPresetPass lp args = Except.ok args')
    (h : args.lookup p = some v) (hz : unsetOrZero v = false) :
    args'.lookup p = some v := by
  match lp with
  | Option.none =>
    simp only [applyLocalPresetPass] at hok
    injection hok with hok
    subst hok
    exact h
  | some pv =>
    simp only [applyLocalPresetPass] at hok
    by_cases ht : pv.truthy
    · simp only [ht, if_true] at hok
      match pv with
      | Val.dict m =>
        injection hok with hok
        subst hok
        exact fillIfNoneOrZero_keeps m args p v h hz
      | Val.none => simp [Val.truthy] at ht
      | Val.int n => simp at hok
      | Val.str s => simp at hok
      | Val.bool b => simp at hok
    · simp only [ht, if_false] at hok
      injection hok with hok
      subst hok
      exact h

theorem applyGlobalPresetPass_keeps (gp : Option Val)
    (args args' : List (String × Val)) (p : String) (v : Val)
    (hok : applyGlobalPresetPass gp args = Except.ok args')
    (h : args.lookup p = some v) (hn : v.isNone = false) :
    args'.lookup p = some v := by
  match gp with
  | Option.none =>
    simp only [applyGlobalPresetPass] at hok
    injection hok with hok
    subst hok
    exact h
  | some pv =>
    simp only [applyGlobalPresetPass] at hok
    by_cases ht : pv.truthy
    · simp only [ht, if_true] at hok
      match pv with
      | Val.dict m =>
        injection hok with hok
        subst hok
        exact fillIfNone_keeps m args p v h hn
      | Val.none => simp [Val.truthy] at ht
      | Val.int n => simp at hok
      | Val.str s => simp at hok
      | Val.bool b => simp at hok
    · simp only [ht, if_false] at hok
      injection hok with hok
      subst hok
      exact h

theorem lookup_insertOrd_self {α : Type} (m : List (String × α)) (k : String)
    (v : α) : (insertOrd m k v).lookup k = some v := by
  induction m with
  | nil => simp [insertOrd, List.lookup_cons]
  | cons hd t ih =>
    obtain ⟨k', v'⟩ := hd
    by_cases hk : k' = k
    · subst hk
      simp [insertOrd, List.lookup_cons]
    · have hbeq : (k == k') = false := beq_false_of_ne (Ne.symm hk)
      simp [insertOrd, hk, List.lookup_cons, hbeq, ih]

theorem lookup_insertOrd_ne {α : Type} (m : List (String × α)) (k p : String)
    (v : α) (hne : p ≠ k) : (insertOrd m k v).lookup p = m.lookup p := by
  induction m with
  | nil => simp [insertOrd, List.lookup_cons, beq_false_of_ne hne]
  | cons hd t ih =>
    obtain ⟨k', v'⟩ := hd
    by_cases hk : k' = k
    · subst hk
      simp [insertOrd, List.lookup_cons, beq_false_of_ne hne]
    · simp [insertOrd, hk, List.lookup_cons, ih]

theorem keys_insertOrd {α : Type} (m : List (String × α)) (k : String)
    (v : α) :
    (insertOrd m k v).map Prod.fst =
      (if k ∈ m.map Prod.fst then m.map Prod.fst
       else m.map Prod.fst ++ [k]) := by
  induction m with
  | nil => simp [insertOrd]
  | cons hd t ih =>
    obtain ⟨k', v'⟩ := hd
    by_cases hk : k' = k
    · subst hk
      simp [insertOrd]
    · simp only [insertOrd, hk, if_false, List.map_cons, ih]
      by_cases hmem : k ∈ t.map Prod.fst
      · simp [hmem, Ne.symm hk]
      · simp [hmem, Ne.symm hk]

theorem pySplit1_not_mem (sep : Char) (cs : List Char) (h : sep ∉ cs) :
    pySplit1 sep cs = [cs] := by
  induction cs with
  | nil => rfl
  | cons c t ih =>
    have hc : c ≠ sep := fun hce => h (hce ▸ List.mem_cons_self c t)
    have ht : sep ∉ t := fun hmem => h (List.mem_cons_of_mem c hmem)
    simp [pySplit1, hc, ih ht]

theorem pySplit1_first (sep : Char) (a b : List Char) (h : sep ∉ a) :
    pySplit1 sep (a ++ sep :: b) = [a, b] := by
  induction a with
  | nil => simp [pySplit1]
  | cons c t ih =>
    have hc : c ≠ sep := fun hce => h (hce ▸ List.mem_cons_self c t)
    have ht : sep ∉ t := fun hmem => h (List.mem_cons_of_mem c hmem)
    simp [pySplit1, hc, ih ht]

theorem pySplit1_mem (sep : Char) (cs : List Char) (h : sep ∈ cs) :
    ∃ x y, pySplit1 sep cs = [x, y] := by
  induction cs with
  | nil => simp at h
  | cons c t ih =>
    by_cases hc : c = sep
    · subst hc
      exact ⟨[], t, by simp [pySplit1]⟩
    · have ht : sep ∈ t := by
        rcases List.mem_cons.mp h with hh | hh
        · exact absurd hh.symm hc
        · exact hh
      obtain ⟨x, y, hxy⟩ := ih ht
      exact ⟨c :: x, y, by simp [pySplit1, hc, hxy]⟩

theorem foldlM_filterStep_err (entries : List (List Char))
    (acc : List (String × String))
    (h : ∃ r ∈ entries, ':' ∉ r) :
    entries.foldlM filterStep acc =
      Except.error (Failure.uncaught "ValueError") := by
  induction entries generalizing acc with
  | nil => simp at h
  | cons e t ih =>
    by_cases he : ':' ∈ e
    · obtain ⟨x, y, hxy⟩ := pySplit1_mem ':' e he
      have hstep : filterStep acc e =
          Except.ok (insertOrd acc (String.mk x) (String.mk y)) := by
        simp [filterStep, hxy]
      have ht : ∃ r ∈ t, ':' ∉ r := by
        rcases h with ⟨r, hr, hnc⟩
        rcases List.mem_cons.mp hr with hh | hh
        · exact absurd (hh ▸ he) hnc
        · exact ⟨r, hh, hnc⟩
      simp only [List.foldlM_cons, hstep]
      simpa using ih (insertOrd acc (String.mk x) (String.mk y)) ht
    · have hstep : filterStep acc e =
          Except.error (Failure.uncaught "ValueError") := by
        simp [filterStep, pySplit1_not_mem ':' e he]
      simp only [List.foldlM_cons, hstep]
      rfl

/-- C1: with a requested preset id, the local-preset pass fills every field
whose value is unset (`None`) or Python-equal to the integer zero sentinel,
while the global-preset pass fills only strictly unset fields; concretely,
with CLI defaults days=hours=minutes=0, a local preset with `days: 7` yields
days=7, but the same preset existing only in the global layer leaves
days=0. -/
theorem C1_preset_zero_asymmetry (preset args : List (String × Val))
    (p : String) (v : Val) (h : args.lookup p = some v) :
    (fillIfNoneOrZero preset args).lookup p =
      some (if unsetOrZero v then (preset.lookup p).getD v else v) ∧
    (fillIfNone preset args).lookup p =
      some (if v.isNone then (preset.lookup p).getD v else v) ∧
    (apply_configs (cliDefaults (Val.str "peak")) [] peakConfig).map
      (fun r => getArg r "days") = Except.ok (Val.int 7) ∧
    (apply_configs (cliDefaults (Val.str "peak")) peakConfig []).map
      (fun r => getArg r "days") = Except.ok (Val.int 0) :=
  ⟨lookup_fillIfNoneOrZero preset args p v h,
   lookup_fillIfNone preset args p v h, rfl, rfl⟩

/-- Witness for C1 at the concrete field `days` held at the integer 0: the
local-preset pass overrides it with 7, the strict pass keeps the 0. -/
theorem C1_preset_zero_asymmetry_witness :
    (fillIfNoneOrZero [("days", Val.int 7)]
      [("days", Val.int 0)]).lookup "days" = some (Val.int 7) ∧
    (fillIfNone [("days", Val.int 7)]
      [("days", Val.int 0)]).lookup "days" = some (Val.int 0) ∧
    (apply_configs (cliDefaults (Val.str "peak")) [] peakConfig).map
      (fun r => getArg r "days") = Except.ok (Val.int 7) ∧
    (apply_configs (cliDefaults (Val.str "peak")) peakConfig []).map
      (fun r => getArg r "days") = Except.ok (Val.int 0) :=
  C1_preset_zero_asymmetry [("days", Val.int 7)] [("days", Val.int 0)]
    "days" (Val.int 0) rfl

/-- C2: a truthy service id appends the literal `module_id:` plus the id to
the raw resource-filter string — initializing it when absent, and otherwise
concatenating directly with no separating comma, so filter `env:prod` with
service `api` becomes `env:prodmodule_id:api`. -/
theorem C2_service_filter_merge (svc rf : String) (h : svc ≠ "") :
    applyService (some svc) Option.none = some ("module_id:" ++ svc) ∧
    applyService (some svc) (some rf) = some (rf ++ ("module_id:" ++ svc)) ∧
    applyService (some "api") (some "env:prod") =
      some "env:prodmodule_id:api" := by
  refine ⟨?_, ?_, rfl⟩
  · simp [applyService, h]
  · simp [applyService, h]

/-- Witness for C2 at service `api` and prior filter `env:prod`. -/
theorem C2_service_filter_merge_witness :
    applyService (some "api") Option.none = some ("module_id:" ++ "api") ∧
    applyService (some "api") (some "env:prod") =
      some ("env:prod" ++ ("module_id:" ++ "api")) ∧
    applyService (some "api") (some "env:prod") =
      some "env:prodmodule_id:api" :=
  C2_service_filter_merge "api" "env:prod" (by decide)

/-- C3: filter decoding sends an absent or empty input to an absent result;
otherwise it splits on `,`, splits each entry at the first `:` only (values
may contain `:`), and inserts into an ordered map in which a later duplicate
key overwrites the value while keeping the first-insertion position;
`decode("env:prod,region:us")` gives the ordered map env ↦ prod,
region ↦ us. -/
theorem C3_filter_decode (k v : List Char) (m : List (String × String))
    (key val : String) (hk : ':' ∉ k) :
    process_filter Option.none = Except.ok Option.none ∧
    process_filter (some "") = Except.ok Option.none ∧
    process_filter (some "env:prod,region:us") =
      Except.ok (some [("env", "prod"), ("region", "us")]) ∧
    pySplit1 ':' (k ++ ':' :: v) = [k, v] ∧
    (insertOrd m key val).lookup key = some val ∧
    (insertOrd m key val).map Prod.fst =
      (if key ∈ m.map Prod.fst then m.map Prod.fst
       else m.map Prod.fst ++ [key]) ∧
    process_filter (some "a:1,b:2,a:3") =
      Except.ok (some [("a", "3"), ("b", "2")]) :=
  ⟨rfl, rfl, rfl, pySplit1_first ':' k v hk,
   lookup_insertOrd_self m key val, keys_insertOrd m key val, rfl⟩

/-- Witness for C3: first-colon split of `a:b:c` and ordered insertion into
a one-entry map. -/
theorem C3_filter_decode_witness :
    process_filter Option.none = Except.ok Option.none ∧
    process_filter (some "") = Except.ok Option.none ∧
    process_filter (some "env:prod,region:us") =
      Except.ok (some [("env", "prod"), ("region", "us")]) ∧
    pySplit1 ':' (['a'] ++ ':' :: ['b', ':', 'c']) = [['a'], ['b', ':', 'c']] ∧
    (insertOrd [("x", "1")] "x" "2").lookup "x" = some "2" ∧
    (insertOrd [("x", "1")] "x" "2").map Prod.fst =
      (if "x" ∈ [("x", "1")].map Prod.fst then [("x", "1")].map Prod.fst
       else [("x", "1")].map Prod.fst ++ ["x"]) ∧
    process_filter (some "a:1,b:2,a:3") =
      Except.ok (some [("a", "3"), ("b", "2")]) :=
  C3_filter_decode ['a'] ['b', ':', 'c'] [("x", "1")] "x" "2" (by decide)

/-- C4 is false as stated: decoding `bad` does fail, but the failure is the
uncaught ValueError from the tuple unpacking in `process_filter`, which
prints a traceback — not the `error()` path that prints a one-line message
followed by the usage help. -/
theorem C4_counterexample :
    process_filter (some "bad") =
      Except.error (Failure.uncaught "ValueError") ∧
    (Failure.uncaught "ValueError").printsUsageHelp = false :=
  ⟨rfl, rfl⟩

/-- C4 (amended): for every non-empty filter string with an entry that has
no `:`, decoding fails with an uncaught ValueError; the process still
terminates with exit code 1 (the CPython exit code for an uncaught
exception), but a traceback is printed instead of the one-line message and
usage help of the `error()` path. -/
theorem C4_filter_error_path (s : String) (hne : s.isEmpty = false)
    (h : ∃ r ∈ pySplit ',' s.toList, ':' ∉ r) :
    process_filter (some s) = Except.error (Failure.uncaught "ValueError") ∧
    (Failure.uncaught "ValueError").exitCode = 1 ∧
    (Failure.uncaught "ValueError").printsUsageHelp = false := by
  refine ⟨?_, rfl, rfl⟩
  simp only [process_filter, hne, Bool.false_eq_true, if_false,
    foldlM_filterStep_err (pySplit ',' s.toList) [] h]
  rfl

/-- Witness for C4 (amended) at the input `bad`. -/
theorem C4_filter_error_path_witness :
    process_filter (some "bad") =
      Except.error (Failure.uncaught "ValueError") ∧
    (Failure.uncaught "ValueError").exitCode = 1 ∧
    (Failure.uncaught "ValueError").printsUsageHelp = false :=
  C4_filter_error_path "bad" rfl (by decide)

/-- C5: query building fails through `error()` whenever the combined time
window days+hours+minutes is zero (the state after resolution when the
infinite flag was not set), regardless of every other field; it also fails
through `error()` when the metric id is absent or empty; otherwise it
produces the query specification, performing no I/O. -/
theorem C5_build_validation (project_id : String) (metric_id : Option String)
    (days hours minutes : Int)
    (rf mf : Option (List (String × String))) (align : Option String)
    (aps : Int) (reduce : Option String) (rg : Option (List String)) :
    (days + hours + minutes = 0 →
      perform_query_build project_id metric_id days hours minutes rf mf
        align aps reduce rg =
        Except.error (Failure.usageExit
          "No time interval specified. Please use --infinite or --days, --hours, --minutes")) ∧
    (days + hours + minutes ≠ 0 → optStrFalsy metric_id = true →
      perform_query_build project_id metric_id days hours minutes rf mf
        align aps reduce rg =
        Except.error (Failure.usageExit
          "Metric ID is required for query, please use --metric")) ∧
    (days + hours + minutes ≠ 0 → optStrFalsy metric_id = false →
      (perform_query_build project_id metric_id days hours minutes rf mf
        align aps reduce rg).isOk = true) := by
  refine ⟨fun h0 => ?_, fun h0 hm => ?_, fun h0 hm => ?_⟩
  · simp [perform_query_build, h0]
  · simp [perform_query_build, h0, hm]
  · simp only [perform_query_build, h0, hm, Bool.false_eq_true, if_false]
    rfl

/-- Witness for C5: zero window fails, missing metric fails, and a one-day
query with a metric id builds. -/
theorem C5_build_validation_witness :
    perform_query_build "proj" (some "met") 0 0 0 Option.none Option.none
      Option.none 300 Option.none Option.none =
      Except.error (Failure.usageExit
        "No time interval specified. Please use --infinite or --days, --hours, --minutes") ∧
    perform_query_build "proj" Option.none 1 0 0 Option.none Option.none
      Option.none 300 Option.none Option.none =
      Except.error (Failure.usageExit
        "Metric ID is required for query, please use --metric") ∧
    (perform_query_build "proj" (some "met") 1 0 0 Option.none Option.none
      Option.none 300 Option.none Option.none).isOk = true :=
  ⟨(C5_build_validation "proj" (some "met") 0 0 0 Option.none Option.none
      Option.none 300 Option.none Option.none).1 (by decide),
   (C5_build_validation "proj" Option.none 1 0 0 Option.none Option.none
      Option.none 300 Option.none Option.none).2.1 (by decide) rfl,
   (C5_build_validation "proj" (some "met") 1 0 0 Option.none Option.none
      Option.none 300 Option.none Option.none).2.2 (by decide) rfl⟩

/-- C6: in scalar-output mode, a zero-row table prints the literal `0`, a
1×1 table prints its single value, and a table with more than one row or
more than one column fails with the assertion failure that realizes
ShapeError — no silent truncation. -/
theorem C6_iloc00_shape (v : String) (row : List String)
    (rest : List (List String))
    (hshape : 1 < (row :: rest).length ∨ 1 < row.length) :
    format_iloc00 [] = Except.ok "0" ∧
    format_iloc00 [[v]] = Except.ok v ∧
    format_iloc00 (row :: rest) =
      Except.error (Failure.uncaught "AssertionError") := by
  refine ⟨rfl, rfl, ?_⟩
  match rest with
  | [] =>
    rcases hshape with h1 | h1
    · simp at h1
    · match row with
      | [] => simp at h1
      | [a] => simp at h1
      | a :: b :: t => rfl
  | r :: rt => rfl

/-- Witness for C6 at the 2×1 table from the example in the spec. -/
theorem C6_iloc00_shape_witness :
    format_iloc00 [] = Except.ok "0" ∧
    format_iloc00 [["7"]] = Except.ok "7" ∧
    format_iloc00 [["a"], ["b"]] =
      Except.error (Failure.uncaught "AssertionError") :=
  C6_iloc00_shape "7" ["a"] [["b"]] (Or.inl (by decide))

/-- C7: a CLI value that is neither `None` nor Python-equal to the integer
zero sentinel survives the whole of `apply_configs` unchanged: the layer
passes fill only `None` fields, the local-preset pass additionally only
zero fields, and the global-preset pass only `None` fields, so resolution
never overwrites it. -/
theorem C7_cli_value_preserved (args gc lc res : List (String × Val))
    (p : String) (v : Val) (hv : args.lookup p = some v)
    (hn : v.isNone = false) (hz : pyEqZero v = false)
    (hres : apply_configs args gc lc = Except.ok res) :
    res.lookup p = some v := by
  have huz : unsetOrZero v = false := by
    simp [unsetOrZero, hn, hz]
  have h1 : (fillIfNone lc args).lookup p = some v :=
    fillIfNone_keeps lc args p v hv hn
  have h2 : (fillIfNone gc (fillIfNone lc args)).lookup p = some v :=
    fillIfNone_keeps gc (fillIfNone lc args) p v h1 hn
  simp only [apply_configs] at hres
  split at hres
  · split at hres
    · exact absurd hres (by simp)
    · split at hres
      · exact absurd hres (by simp)
      · rename_i r3 heq3
        exact applyGlobalPresetPass_keeps _ r3 res p v hres
          (applyLocalPresetPass_keeps _
            (fillIfNone gc (fillIfNone lc args)) r3 p v heq3 h2 huz) hn
  · injection hres with hres
    subst hres
    exact h2

/-- Witness for C7: the CLI project id survives resolution even though the
matching local preset also defines `project`. -/
theorem C7_cli_value_preserved_witness :
    ([("preset", Val.str "peak"), ("project", Val.str "myproj"),
      ("days", Val.int 7)] : List (String × Val)).lookup "project" =
      some (Val.str "myproj") :=
  C7_cli_value_preserved
    [("preset", Val.str "peak"), ("project", Val.str "myproj"),
     ("days", Val.int 0)]
    []
    [("peak", Val.dict [("days", Val.int 7),
      ("project", Val.str "presetproj")])]
    [("preset", Val.str "peak"), ("project", Val.str "myproj"),
     ("days", Val.int 7)]
    "project" (Val.str "myproj") rfl rfl rfl rfl

/-- C8: when the infinite flag is truthy, `days` is set to the whole-day
count between the fixed epoch 2011-10-06 and the current UTC instant (here
`nowSecs` seconds after that epoch), and `hours` and `minutes` are both
forced to 0, overriding any previously resolved window values. -/
theorem C8_infinite_overrides (args : List (String × Val)) (nowSecs : Nat)
    (h : (getArg args "infinite").truthy = true) :
    getArg (applyInfinite nowSecs args) "days" =
      Val.int (nowSecs / 86400) ∧
    getArg (applyInfinite nowSecs args) "hours" = Val.int 0 ∧
    getArg (applyInfinite nowSecs args) "minutes" = Val.int 0 := by
  simp only [applyInfinite, h, if_true]
  refine ⟨?_, ?_, ?_⟩
  · simp only [getArg]
    rw [lookup_insertOrd_ne _ _ _ _ (by decide),
      lookup_insertOrd_ne _ _ _ _ (by decide), lookup_insertOrd_self]
    rfl
  · simp only [getArg]
    rw [lookup_insertOrd_ne _ _ _ _ (by decide), lookup_insertOrd_self]
    rfl
  · simp only [getArg]
    rw [lookup_insertOrd_self]
    rfl

/-- Witness for C8 five days after the epoch, with previously resolved
window values all overridden. -/
theorem C8_infinite_overrides_witness :
    getArg (applyInfinite 432000
      [("infinite", Val.bool true), ("days", Val.int 3),
       ("hours", Val.int 4), ("minutes", Val.int 5)]) "days" =
      Val.int 5 ∧
    getArg (applyInfinite 432000
      [("infinite", Val.bool true), ("days", Val.int 3),
       ("hours", Val.int 4), ("minutes", Val.int 5)]) "hours" = Val.int 0 ∧
    getArg (applyInfinite 432000
      [("infinite", Val.bool true), ("days", Val.int 3),
       ("hours", Val.int 4), ("minutes", Val.int 5)]) "minutes" =
      Val.int 0 :=
  C8_infinite_overrides
    [("infinite", Val.bool true), ("days", Val.int 3),
     ("hours", Val.int 4), ("minutes", Val.int 5)] 432000 rfl

/-- C9 is false as stated: the default 300 is injected only when the value
is still unset, and nothing validates positivity — a run with
`--align ALIGN_SUM --align-period-seconds -5` hands the non-positive period
-5 to the query builder, which accepts it into the query specification. -/
theorem C9_counterexample :
    pyInt (getArg (defaultAlignPeriod
      (insertOrd (insertOrd (cliDefaults Val.none) "align"
        (Val.str "ALIGN_SUM")) "align_period_seconds" (Val.str "-5")))
      "align_period_seconds") = some (-5) ∧
    perform_query_build "proj" (some "met") 1 0 0 Option.none Option.none
      (some "ALIGN_SUM") (-5) Option.none Option.none =
      Except.ok
        { project := "proj"
          metric_type := "met"
          days := 1
          hours := 0
          minutes := 0
          resource_filter := Option.none
          metric_filter := Option.none
          align := some ("ALIGN_SUM", -5)
          reduce := Option.none } ∧
    ¬(0 < (-5 : Int)) := by
  refine ⟨by rfl, by rfl, by decide⟩

/-- C9 (amended): when `align_period_seconds` is still unset after all
resolution passes, the default 300 is injected before query construction;
when it is set, the resolved value is passed through unchanged and
unvalidated, so a supplied non-positive period reaches the query builder. -/
theorem C9_align_default (args : List (String × Val)) :
    ((getArg args "align_period_seconds").isNone = true →
      getArg (defaultAlignPeriod args) "align_period_seconds" =
        Val.int 300) ∧
    ((getArg args "align_period_seconds").isNone = false →
      defaultAlignPeriod args = args) := by
  constructor
  · intro h
    simp only [getArg] at h
    simp only [defaultAlignPeriod, getArg, h, if_true]
    rw [lookup_insertOrd_self]
    rfl
  · intro h
    simp only [getArg] at h
    simp [defaultAlignPeriod, getArg, h]

/-- Witness for C9 (amended): default injected on an unset dictionary, and
a set value (the string -5) left untouched. -/
theorem C9_align_default_witness :
    getArg (defaultAlignPeriod []) "align_period_seconds" = Val.int 300 ∧
    defaultAlignPeriod [("align_period_seconds", Val.str "-5")] =
      [("align_period_seconds", Val.str "-5")] :=
  ⟨(C9_align_default []).1 rfl,
   (C9_align_default [("align_period_seconds", Val.str "-5")]).2 rfl⟩

/-- C10: a time-window value typed on the command line arrives as a string,
and a Python string is never `== 0` and never `None`, so the local-preset
zero-as-unset rule does not fire for it and the preset value is not taken —
while the untouched built-in default, the integer 0, is overridden by the
same preset. -/
theorem C10_explicit_zero_is_string (s : String)
    (preset args : List (String × Val)) (p : String)
    (h : args.lookup p = some (Val.str s)) :
    pyEqZero (Val.str s) = false ∧
    (Val.str s).isNone = false ∧
    (fillIfNoneOrZero preset args).lookup p = some (Val.str s) ∧
    (apply_configs (cliArgs (Val.str "peak") (Val.str "0") (Val.int 0)
      (Val.int 0)) [] peakConfig).map (fun r => getArg r "days") =
      Except.ok (Val.str "0") ∧
    (apply_configs (cliDefaults (Val.str "peak")) [] peakConfig).map
      (fun r => getArg r "days") = Except.ok (Val.int 7) :=
  ⟨rfl, rfl, fillIfNoneOrZero_keeps preset args p (Val.str s) h rfl,
   rfl, rfl⟩

/-- Witness for C10 at the explicit CLI string `0` against a preset holding
`days: 7`. -/
theorem C10_explicit_zero_is_string_witness :
    pyEqZero (Val.str "0") = false ∧
    (Val.str "0").isNone = false ∧
    (fillIfNoneOrZero [("days", Val.int 7)]
      [("days", Val.str "0")]).lookup "days" = some (Val.str "0") ∧
    (apply_configs (cliArgs (Val.str "peak") (Val.str "0") (Val.int 0)
      (Val.int 0)) [] peakConfig).map (fun r => getArg r "days") =
      Except.ok (Val.str "0") ∧
    (apply_configs (cliDefaults (Val.str "peak")) [] peakConfig).map
      (fun r => getArg r "days") = Except.ok (Val.int 7) :=
  C10_explicit_zero_is_string "0" [("days", Val.int 7)]
    [("days", Val.str "0")] "days" rfl
